import Mathlib

/-!
Verification of `trainer/preprocess_data.py` from deflaux/cloudml-examples.

The pipeline reads variant rows and metadata rows from BigQuery, groups the
variant rows by sample key, combines the metadata rows into a single mapping,
and invokes a sample-to-example assembler once per sample group, passing the
broadcast metadata mapping as a side input.

We embed the dataflow of the pipeline shallowly: a PCollection is a list of
elements, `beam.Map` is `List.map` (raising lambdas become `Except`-valued
traversals), `beam.GroupByKey` is an exact-key grouping, and
`beam.pvalue.AsSingleton` side input becomes passing the single combined
value to every invocation.

Rows are dictionaries from column name to value.
-/

/-- A BigQuery cell value: string, integer, or NULL (Python `None`). -/
inductive Value where
  | str (s : String)
  | int (n : Int)
  | null
deriving DecidableEq, Repr

/-- A row is a dictionary from column name to value, as produced by the
BigQuery row source. -/
abbrev Row := List (String × Value)

/-- Modelled from the spec: `trainer.feature_encoder.KEY_COLUMN` (module not
under src/) — the internal column name for the sample key. -/
def KEY_COLUMN : String := "sample_key"

/-- Modelled from the spec: `trainer.feature_encoder.CONTIG_COLUMN`. -/
def CONTIG_COLUMN : String := "contig"

/-- Modelled from the spec: `trainer.feature_encoder.START_COLUMN`. -/
def START_COLUMN : String := "start_pos"

/-- Modelled from the spec: `trainer.feature_encoder.END_COLUMN`. -/
def END_COLUMN : String := "end_pos"

/-- Modelled from the spec: `trainer.feature_encoder.REF_COLUMN`. -/
def REF_COLUMN : String := "ref"

/-- Modelled from the spec: `trainer.feature_encoder.ALT_COLUMN`. -/
def ALT_COLUMN : String := "alt"

/-- Modelled from the spec: `trainer.feature_encoder.ALT_NUM_COLUMN`. -/
def ALT_NUM_COLUMN : String := "alt_num"

/-- Modelled from the spec: `trainer.feature_encoder.FIRST_ALLELE_COLUMN`. -/
def FIRST_ALLELE_COLUMN : String := "first_allele"

/-- Modelled from the spec: `trainer.feature_encoder.SECOND_ALLELE_COLUMN`. -/
def SECOND_ALLELE_COLUMN : String := "second_allele"

/-- Modelled from the spec:
`trainer.ancestry_metadata_encoder.POPULATION_COLUMN`. -/
def POPULATION_COLUMN : String := "population"

/-- Modelled from the spec:
`trainer.ancestry_metadata_encoder.SUPER_POPULATION_COLUMN`. -/
def SUPER_POPULATION_COLUMN : String := "super_population"

/-- Modelled from the spec:
`trainer.ancestry_metadata_encoder.GENDER_COLUMN`. -/
def GENDER_COLUMN : String := "gender"

/-- Jinja template replacements for the metadata query
(`METADATA_QUERY_REPLACEMENTS` in `preprocess_data.py`). -/
def METADATA_QUERY_REPLACEMENTS : List (String × String) :=
  [(("KEY_COLUMN"), KEY_COLUMN),
   (("POPULATION_COLUMN"), POPULATION_COLUMN),
   (("SUPER_POPULATION_COLUMN"), SUPER_POPULATION_COLUMN),
   (("GENDER_COLUMN"), GENDER_COLUMN)]

/-- Jinja template replacements for the data query
(`DATA_QUERY_REPLACEMENTS` in `preprocess_data.py`). -/
def DATA_QUERY_REPLACEMENTS : List (String × String) :=
  [(("KEY_COLUMN"), KEY_COLUMN),
   (("CONTIG_COLUMN"), CONTIG_COLUMN),
   (("START_COLUMN"), START_COLUMN),
   (("END_COLUMN"), END_COLUMN),
   (("REF_COLUMN"), REF_COLUMN),
   (("ALT_COLUMN"), ALT_COLUMN),
   (("ALT_NUM_COLUMN"), ALT_NUM_COLUMN),
   (("FIRST_ALLELE_COLUMN"), FIRST_ALLELE_COLUMN),
   (("SECOND_ALLELE_COLUMN"), SECOND_ALLELE_COLUMN)]

/-- `row[encoder.KEY_COLUMN]` from the `BucketVariants` lambda: dictionary
access that raises `KeyError` when the column is absent. -/
def rowKey (row : Row) : Except String Value :=
  match row.lookup KEY_COLUMN with
  | some v => Except.ok v
  | none => Except.error ("KeyError: " ++ KEY_COLUMN)

/-- The `BucketVariants` transform: `beam.Map(lambda row: (row[KEY_COLUMN],
row))` applied across the whole collection; a `KeyError` on any element is
fatal to the batch. -/
def bucketVariants : List Row → Except String (List (Value × Row))
  | [] => Except.ok []
  | row :: rest =>
    match rowKey row with
    | Except.error e => Except.error e
    | Except.ok k =>
      match bucketVariants rest with
      | Except.error e => Except.error e
      | Except.ok kvs => Except.ok ((k, row) :: kvs)

/-- `beam.GroupByKey`: one output pair per distinct key, carrying all values
observed with that key (exact key equality). -/
def groupByKey (kvs : List (Value × Row)) : List (Value × List Row) :=
  ((kvs.map Prod.fst).dedup).map
    (fun k => (k, (kvs.filter (fun p => p.1 = k)).map Prod.snd))

/-- `variants_to_examples` from `preprocess_data.py`: key the variant rows by
sample (`BucketVariants`), group them by sample key (`GroupBySample`), and map
the assembler over the groups (`SamplesToExamples`), passing the broadcast
metadata mapping (`AsSingleton`) to every invocation.  The metadata and
example types are parameters, as the assembler function is. -/
def variants_to_examples {μ ε : Type} (input_data : List Row)
    (samples_metadata : μ)
    (sample_to_example_fn : Value → List Row → μ → ε) :
    Except String (List ε) :=
  match bucketVariants input_data with
  | Except.error e => Except.error e
  | Except.ok variant_kvs =>
    Except.ok ((groupByKey variant_kvs).map
      (fun kv => sample_to_example_fn kv.1 kv.2 samples_metadata))

/-- The sample key of a row, defaulting to NULL; coincides with the raised
key wherever the key column is present. -/
def keyD (row : Row) : Value := (row.lookup KEY_COLUMN).getD Value.null

/-- The distinct sample keys observed in a variant stream. -/
def sampleKeys (input_data : List Row) : List Value :=
  (input_data.map keyD).dedup

/-- All rows of the stream carrying the given sample key. -/
def groupOf (input_data : List Row) (k : Value) : List Row :=
  input_data.filter (fun r => keyD r = k)

/-- All rows of the stream have the sample key column. -/
def AllKeyed (input_data : List Row) : Prop :=
  ∀ r ∈ input_data, (r.lookup KEY_COLUMN).isSome = true

instance (input_data : List Row) : Decidable (AllKeyed input_data) := by
  unfold AllKeyed; infer_instance

theorem bucketVariants_ok {l : List Row} (h : AllKeyed l) :
    bucketVariants l = Except.ok (l.map (fun r => (keyD r, r))) := by
  induction l with
  | nil => rfl
  | cons r rest ih =>
    have hr : (r.lookup KEY_COLUMN).isSome = true := h r (List.mem_cons_self r rest)
    have hrest : AllKeyed rest := fun x hx => h x (List.mem_cons_of_mem r hx)
    obtain ⟨v, hv⟩ := Option.isSome_iff_exists.mp hr
    simp only [bucketVariants, rowKey, hv, ih hrest, keyD]
    simp [hv]

theorem keyed_kvs_fst {l : List Row} :
    (l.map (fun r => (keyD r, r))).map Prod.fst = l.map keyD := by
  simp

theorem keyed_kvs_filter {l : List Row} {k : Value} :
    ((l.map (fun r => (keyD r, r))).filter (fun p => p.1 = k)).map Prod.snd
      = l.filter (fun r => keyD r = k) := by
  induction l with
  | nil => rfl
  | cons r rest ih =>
    by_cases hk : keyD r = k <;>
      simp [List.filter_cons, hk, ih]

/-- Structural description of `variants_to_examples` on fully keyed input:
one assembler invocation per distinct observed key, on that key's full group,
with the broadcast metadata. -/
theorem variants_to_examples_eq {μ ε : Type} {input_data : List Row}
    (samples_metadata : μ) (f : Value → List Row → μ → ε)
    (h : AllKeyed input_data) :
    variants_to_examples input_data samples_metadata f =
      Except.ok ((sampleKeys input_data).map
        (fun k => f k (groupOf input_data k) samples_metadata)) := by
  unfold variants_to_examples
  rw [bucketVariants_ok h]
  simp only [groupByKey, keyed_kvs_fst, List.map_map, sampleKeys]
  congr 1
  apply List.map_congr_left
  intro k _
  simp [Function.comp, keyed_kvs_filter, groupOf]

/-- Modelled from the spec: `trainer.util.TableToDictCombineFn` (module not
under src/) — the Metadata Table Reducer: folds the metadata rows into one
mapping keyed by the sample key column; a row missing the key column is
dropped (non-fatal); on duplicate keys the last seen wins (the fixed,
documented conflict policy). -/
def TableToDictCombineFn (key_column : String) (rows : List Row) :
    List (Value × Row) :=
  rows.foldl (fun acc row =>
    match row.lookup key_column with
    | none => acc
    | some k => (acc.filter (fun p => p.1 ≠ k)) ++ [(k, row)]) []

/-- The dataflow of `run` after the two reads: combine all metadata rows into
the single broadcast mapping (`TableToDictionary`), then convert the variant
rows to examples with it. -/
def run_examples {ε : Type} (metadata_rows : List Row)
    (variant_rows : List Row)
    (f : Value → List Row → List (Value × Row) → ε) :
    Except String (List ε) :=
  variants_to_examples variant_rows
    (TableToDictCombineFn KEY_COLUMN metadata_rows) f

theorem bucketVariants_error {l : List Row}
    (h : ∃ r ∈ l, r.lookup KEY_COLUMN = none) :
    ∃ e, bucketVariants l = Except.error e := by
  induction l with
  | nil => simp at h
  | cons r rest ih =>
    obtain ⟨r0, hr0, hnone⟩ := h
    rcases List.mem_cons.mp hr0 with rfl | hmem
    · exact ⟨("KeyError: " ++ KEY_COLUMN), by simp [bucketVariants, rowKey, hnone]⟩
    · cases hv : r.lookup KEY_COLUMN with
      | none => exact ⟨("KeyError: " ++ KEY_COLUMN), by simp [bucketVariants, rowKey, hv]⟩
      | some v =>
        obtain ⟨e, he⟩ := ih ⟨r0, hmem, hnone⟩
        exact ⟨e, by simp [bucketVariants, rowKey, hv, he]⟩

/-- C1: `variants_to_examples` groups variant rows by exact equality of the
sample key field and invokes the assembler exactly once per distinct sample
key observed (the observed keys, deduplicated, are without repetition and
cover exactly the keys of the stream), passing that key, the full group of
rows carrying that key, and the metadata mapping. -/
theorem C1_grouping_driver {μ ε : Type} (input_data : List Row)
    (samples_metadata : μ) (f : Value → List Row → μ → ε)
    (h : AllKeyed input_data) :
    (sampleKeys input_data).Nodup ∧
    (∀ k, k ∈ sampleKeys input_data ↔ ∃ r ∈ input_data, keyD r = k) ∧
    variants_to_examples input_data samples_metadata f =
      Except.ok ((sampleKeys input_data).map
        (fun k => f k (groupOf input_data k) samples_metadata)) := by
  refine ⟨List.nodup_dedup _, ?_, variants_to_examples_eq samples_metadata f h⟩
  intro k
  simp [sampleKeys, List.mem_dedup, List.mem_map]

/-- Witness for C1 at a concrete three-row stream with two distinct keys. -/
theorem C1_grouping_driver_witness :
    (sampleKeys [[(KEY_COLUMN, Value.str ("S1"))],
                 [(KEY_COLUMN, Value.str ("S2"))],
                 [(KEY_COLUMN, Value.str ("S1")), (REF_COLUMN, Value.str ("A"))]]).Nodup ∧
    (∀ k, k ∈ sampleKeys [[(KEY_COLUMN, Value.str ("S1"))],
                 [(KEY_COLUMN, Value.str ("S2"))],
                 [(KEY_COLUMN, Value.str ("S1")), (REF_COLUMN, Value.str ("A"))]] ↔
      ∃ r ∈ [[(KEY_COLUMN, Value.str ("S1"))],
                 [(KEY_COLUMN, Value.str ("S2"))],
                 [(KEY_COLUMN, Value.str ("S1")), (REF_COLUMN, Value.str ("A"))]], keyD r = k) ∧
    variants_to_examples [[(KEY_COLUMN, Value.str ("S1"))],
                 [(KEY_COLUMN, Value.str ("S2"))],
                 [(KEY_COLUMN, Value.str ("S1")), (REF_COLUMN, Value.str ("A"))]] (0 : Nat)
        (fun k vs m => (k, vs.length + m)) =
      Except.ok ((sampleKeys [[(KEY_COLUMN, Value.str ("S1"))],
                 [(KEY_COLUMN, Value.str ("S2"))],
                 [(KEY_COLUMN, Value.str ("S1")), (REF_COLUMN, Value.str ("A"))]]).map
        (fun k => (k, (groupOf [[(KEY_COLUMN, Value.str ("S1"))],
                 [(KEY_COLUMN, Value.str ("S2"))],
                 [(KEY_COLUMN, Value.str ("S1")), (REF_COLUMN, Value.str ("A"))]] k).length + 0))) :=
  C1_grouping_driver _ 0 (fun k vs m => (k, vs.length + m)) (by decide)

/-- C2: the set of sample keys in the output of `variants_to_examples` equals
the set of sample keys appearing in the variant rows, for every metadata
value whatsoever (in particular, metadata-only keys produce no output). -/
theorem C2_variants_define_output {μ : Type} (input_data : List Row)
    (samples_metadata : μ) (h : AllKeyed input_data) :
    variants_to_examples input_data samples_metadata (fun k _ _ => k) =
      Except.ok (sampleKeys input_data) ∧
    (∀ k : Value, k ∈ sampleKeys input_data ↔ ∃ r ∈ input_data, keyD r = k) := by
  constructor
  · rw [variants_to_examples_eq samples_metadata (fun k _ _ => k) h]
    simp
  · intro k
    simp [sampleKeys, List.mem_dedup, List.mem_map]

/-- Witness for C2: the metadata mapping contains a key `S9` that has no
variant row; the output keys are exactly the variant keys. -/
theorem C2_variants_define_output_witness :
    variants_to_examples [[(KEY_COLUMN, Value.str ("S1"))]]
        [(Value.str ("S9"), ([] : Row))] (fun k _ _ => k) =
      Except.ok (sampleKeys [[(KEY_COLUMN, Value.str ("S1"))]]) ∧
    (∀ k : Value, k ∈ sampleKeys [[(KEY_COLUMN, Value.str ("S1"))]] ↔
      ∃ r ∈ [[(KEY_COLUMN, Value.str ("S1"))]], keyD r = k) :=
  C2_variants_define_output _ _ (by decide)

/-- C6: a variant row lacking the sample-key field is fatal: the key
extraction raises and `variants_to_examples` propagates the failure to the
caller instead of producing any output. -/
theorem C6_missing_key_fatal {μ ε : Type} (input_data : List Row)
    (samples_metadata : μ) (f : Value → List Row → μ → ε)
    (h : ∃ r ∈ input_data, r.lookup KEY_COLUMN = none) :
    ∃ e, variants_to_examples input_data samples_metadata f =
      Except.error e := by
  obtain ⟨e, he⟩ := bucketVariants_error h
  exact ⟨e, by simp [variants_to_examples, he]⟩

/-- Witness for C6: a stream containing one keyed row and one row without
the key column aborts. -/
theorem C6_missing_key_fatal_witness :
    ∃ e, variants_to_examples
      [[(KEY_COLUMN, Value.str ("S1"))], [(REF_COLUMN, Value.str ("A"))]]
      (0 : Nat) (fun k vs m => (k, vs.length + m)) = Except.error e :=
  C6_missing_key_fatal _ 0 _ (by decide)

/-- C7: in the run dataflow the metadata mapping is the single global combine
of all metadata rows, and every assembler invocation — exactly one per
distinct sample key — receives that one complete mapping. -/
theorem C7_broadcast_metadata (metadata_rows variant_rows : List Row)
    (h : AllKeyed variant_rows) :
    ∃ invocations : List (Value × List Row × List (Value × Row)),
      run_examples metadata_rows variant_rows (fun k vs m => (k, vs, m)) =
        Except.ok invocations ∧
      invocations.length = (sampleKeys variant_rows).length ∧
      (sampleKeys variant_rows).Nodup ∧
      ∀ inv ∈ invocations,
        inv.2.2 = TableToDictCombineFn KEY_COLUMN metadata_rows := by
  refine ⟨(sampleKeys variant_rows).map
    (fun k => (k, groupOf variant_rows k,
      TableToDictCombineFn KEY_COLUMN metadata_rows)), ?_, by simp,
    List.nodup_dedup _, ?_⟩
  · exact variants_to_examples_eq _ _ h
  · intro inv hinv
    obtain ⟨k, _, rfl⟩ := List.mem_map.mp hinv
    rfl

/-- Witness for C7 at concrete metadata and variant rows. -/
theorem C7_broadcast_metadata_witness :
    ∃ invocations : List (Value × List Row × List (Value × Row)),
      run_examples
        [[(KEY_COLUMN, Value.str ("S1")), (POPULATION_COLUMN, Value.str ("GBR"))]]
        [[(KEY_COLUMN, Value.str ("S1"))], [(KEY_COLUMN, Value.str ("S2"))]]
        (fun k vs m => (k, vs, m)) = Except.ok invocations ∧
      invocations.length = (sampleKeys
        [[(KEY_COLUMN, Value.str ("S1"))], [(KEY_COLUMN, Value.str ("S2"))]]).length ∧
      (sampleKeys
        [[(KEY_COLUMN, Value.str ("S1"))], [(KEY_COLUMN, Value.str ("S2"))]]).Nodup ∧
      ∀ inv ∈ invocations,
        inv.2.2 = TableToDictCombineFn KEY_COLUMN
          [[(KEY_COLUMN, Value.str ("S1")), (POPULATION_COLUMN, Value.str ("GBR"))]] :=
  C7_broadcast_metadata _ _ (by decide)

/-- C9: on two arrangements of the same multiset of variant rows, with the
same metadata and an assembler insensitive to intra-group arrival order (the
within-slot token-order quotient), `variants_to_examples` yields outputs that
are permutations of one another, hence equal as sets. -/
theorem C9_determinism {μ ε : Type} (input1 input2 : List Row)
    (samples_metadata : μ) (f : Value → List Row → μ → ε)
    (hperm : input1.Perm input2) (h : AllKeyed input1)
    (hf : ∀ (k : Value) (vs vs' : List Row), vs.Perm vs' →
      f k vs samples_metadata = f k vs' samples_metadata) :
    ∃ out1 out2,
      variants_to_examples input1 samples_metadata f = Except.ok out1 ∧
      variants_to_examples input2 samples_metadata f = Except.ok out2 ∧
      out1.Perm out2 ∧ (∀ x, x ∈ out1 ↔ x ∈ out2) := by
  have h2 : AllKeyed input2 := fun r hr => h r (hperm.mem_iff.mpr hr)
  have hkeys : (input1.map keyD).Perm (input2.map keyD) := hperm.map keyD
  have hdedup : (sampleKeys input1).Perm (sampleKeys input2) := hkeys.dedup
  have hg : (fun k => f k (groupOf input1 k) samples_metadata)
      = (fun k => f k (groupOf input2 k) samples_metadata) := by
    funext k
    exact hf k _ _ (hperm.filter (fun r => decide (keyD r = k)))
  refine ⟨_, _, variants_to_examples_eq samples_metadata f h,
    variants_to_examples_eq samples_metadata f h2, ?_, ?_⟩
  · rw [hg]
    exact hdedup.map _
  · intro x
    rw [hg]
    exact (hdedup.map _).mem_iff

/-- Witness for C9: two orderings of a three-row stream, with a
group-order-insensitive assembler, give permuted outputs. -/
theorem C9_determinism_witness :
    ∃ out1 out2,
      variants_to_examples
        [[(KEY_COLUMN, Value.str ("S1"))],
         [(KEY_COLUMN, Value.str ("S2"))],
         [(KEY_COLUMN, Value.str ("S1")), (REF_COLUMN, Value.str ("A"))]]
        (0 : Nat) (fun k vs _m => (k, vs.length)) = Except.ok out1 ∧
      variants_to_examples
        [[(KEY_COLUMN, Value.str ("S2"))],
         [(KEY_COLUMN, Value.str ("S1")), (REF_COLUMN, Value.str ("A"))],
         [(KEY_COLUMN, Value.str ("S1"))]]
        (0 : Nat) (fun k vs _m => (k, vs.length)) = Except.ok out2 ∧
      out1.Perm out2 ∧ (∀ x, x ∈ out1 ↔ x ∈ out2) :=
  C9_determinism _ _ 0 (fun k vs _m => (k, vs.length))
    (by decide) (by decide)
    (fun k vs vs' hp => by simp [hp.length_eq])

/-- The accumulating state of option parsing: `argparse` destinations before
the required-argument check.  `add_hethom` starts at its
`parser.set_defaults(add_hethom=True)` default; `bin_size` defaults to
`None`. -/
structure OptionState where
  output : Option String
  input : Option String
  metadata : Option String
  add_hethom : Bool
  bin_size : Option Int
deriving DecidableEq, Repr

/-- The parsed `PreprocessOptions` once the required arguments are known to
be present. -/
structure PreprocessOptions where
  output : String
  input : String
  metadata : String
  add_hethom : Bool
  bin_size : Option Int
deriving DecidableEq, Repr

/-- Decimal digits accumulated into a natural number; any non-digit
character rejects the token. -/
def natDigitsAux : List Char → Nat → Option Nat
  | [], acc => some acc
  | c :: cs, acc =>
    if c.isDigit then natDigitsAux cs (acc * 10 + (c.toNat - 48)) else none

/-- A non-empty all-digit character sequence as a natural number. -/
def parseNatChars (ds : List Char) : Option Nat :=
  match ds with
  | [] => none
  | _ => natDigitsAux ds 0

/-- Python `int(...)` as used by `argparse` for `type=int`: an optional sign
followed by decimal digits; anything else raises and is reported as an
argument error. -/
def pyInt (s : String) : Option Int :=
  match s.data with
  | ('-') :: ds => (parseNatChars ds).map (fun n => -(n : Int))
  | ('+') :: ds => (parseNatChars ds).map (fun n => (n : Int))
  | ds => (parseNatChars ds).map (fun n => (n : Int))

/-- The argument scan of `PreprocessOptions._add_argparse_args`:
`--output`/`--input`/`--metadata` take one value; `--hethom_words` and
`--no_hethom_words` store `True`/`False` into `add_hethom` (last occurrence
wins); `--bin_size` takes one value parsed as an int — with no further
validation.  Unknown arguments belong to the other `PipelineOptions` views
and are passed through. -/
def parseArgScan : List String → OptionState → Except String OptionState
  | [], acc => Except.ok acc
  | arg :: rest, acc =>
    if arg = ("--hethom_words") then
      parseArgScan rest { acc with add_hethom := true }
    else if arg = ("--no_hethom_words") then
      parseArgScan rest { acc with add_hethom := false }
    else if arg = ("--output") then
      match rest with
      | v :: rest2 => parseArgScan rest2 { acc with output := some v }
      | [] => Except.error ("argument --output: expected one argument")
    else if arg = ("--input") then
      match rest with
      | v :: rest2 => parseArgScan rest2 { acc with input := some v }
      | [] => Except.error ("argument --input: expected one argument")
    else if arg = ("--metadata") then
      match rest with
      | v :: rest2 => parseArgScan rest2 { acc with metadata := some v }
      | [] => Except.error ("argument --metadata: expected one argument")
    else if arg = ("--bin_size") then
      match rest with
      | v :: rest2 =>
        match pyInt v with
        | some n => parseArgScan rest2 { acc with bin_size := some n }
        | none => Except.error ("argument --bin_size: invalid int value")
      | [] => Except.error ("argument --bin_size: expected one argument")
    else
      parseArgScan rest acc

/-- Parsing of the `PreprocessOptions` view: scan the arguments, then check
the three `required=True` arguments are present. -/
def parse_preprocess_args (argv : List String) :
    Except String PreprocessOptions :=
  match parseArgScan argv ⟨none, none, none, true, none⟩ with
  | Except.error e => Except.error e
  | Except.ok acc =>
    match acc.output, acc.input, acc.metadata with
    | some o, some i, some m =>
      Except.ok ⟨o, i, m, acc.add_hethom, acc.bin_size⟩
    | _, _, _ =>
      Except.error ("the arguments --output, --input, --metadata are required")

/-- Modelled from the spec:
`trainer.variant_encoder.variant_to_contig_feature_name` (module not under
src/) — the contig strategy: the feature slot is the contig name,
unconditionally. -/
def variant_to_contig_feature_name (variant : Row) : Option String :=
  match variant.lookup CONTIG_COLUMN with
  | some (Value.str c) => some c
  | _ => none

/-- Modelled from the spec:
`trainer.variant_encoder.build_variant_to_binned_feature_name` (module not
under src/) — the binned strategy with the given bin width: the feature slot
is the contig name concatenated with `start // bin_size` (floor division). -/
def build_variant_to_binned_feature_name (bin_size : Int) (variant : Row) :
    Option String :=
  match variant.lookup CONTIG_COLUMN, variant.lookup START_COLUMN with
  | some (Value.str c), some (Value.int s) =>
    some (c ++ (":") ++ toString (Int.fdiv s bin_size))
  | _, _ => none

/-- Modelled from the spec: `trainer.variant_encoder.build_variant_to_words`
(module not under src/) — the word encoder: the token encodes the
alternate-allele identity and, when `add_hethom` is set, a
heterozygous/homozygous qualifier derived from comparing the two allele
calls against the alternate index. -/
def build_variant_to_words (add_hethom : Bool) (variant : Row) :
    Option (List String) :=
  match variant.lookup ALT_COLUMN, variant.lookup ALT_NUM_COLUMN,
      variant.lookup FIRST_ALLELE_COLUMN,
      variant.lookup SECOND_ALLELE_COLUMN with
  | some (Value.str alt), some (Value.int altNum), some (Value.int a1),
      some (Value.int a2) =>
    if add_hethom then
      some [alt ++ ("_") ++
        (if a1 = altNum ∧ a2 = altNum then ("hom") else ("het"))]
    else
      some [alt]
  | _, _, _, _ => none

/-- Lines 168–171 of `run`: start from the contig strategy and overwrite it
with the binned strategy exactly when `bin_size` is not `None`, built with
exactly the configured width. -/
def select_variant_to_feature_name_fn
    (preprocess_options : PreprocessOptions) : Row → Option String :=
  match preprocess_options.bin_size with
  | none => variant_to_contig_feature_name
  | some b => build_variant_to_binned_feature_name b

/-- Lines 175–176 of `run`: the word encoder is built with exactly the
configured `add_hethom` boolean. -/
def select_variant_to_words_fn (preprocess_options : PreprocessOptions) :
    Row → Option (List String) :=
  build_variant_to_words preprocess_options.add_hethom

/-- The startup phase of `run`, before any data is read: parse the options
and assemble the encoding strategies. -/
structure RunStartup where
  options : PreprocessOptions
  variant_to_feature_name_fn : Row → Option String
  variant_to_words_fn : Row → Option (List String)

/-- `run` up to pipeline construction: option parsing followed by strategy
assembly.  No validation of `bin_size` occurs anywhere on this path. -/
def run_startup (argv : List String) : Except String RunStartup :=
  match parse_preprocess_args argv with
  | Except.error e => Except.error e
  | Except.ok opts =>
    Except.ok ⟨opts, select_variant_to_feature_name_fn opts,
      select_variant_to_words_fn opts⟩

/-- Whether `run`'s startup accepts the argument list (no failure before
pipeline construction). -/
def startupAccepts (argv : List String) : Bool :=
  match run_startup argv with
  | Except.ok _ => true
  | Except.error _ => false

/-- C3 counterexample: a configuration with `--bin_size 0` (non-positive) is
NOT rejected at startup — `run`'s startup accepts it, contradicting the
claim that `run()` fails on such a configuration before constructing the
pipeline. -/
theorem C3_counterexample_bin_size_zero_accepted :
    startupAccepts [("--output"), ("gs"), ("--input"), ("i.jinja"),
      ("--metadata"), ("m.jinja"), ("--bin_size"), ("0")] = true := rfl

/-- C3 amended: `run` performs no validation of `bin_size` at startup: a
zero or negative `--bin_size` parses successfully and the binned strategy is
assembled with exactly that non-positive width. -/
theorem C3_no_startup_validation :
    run_startup [("--output"), ("gs"), ("--input"), ("i.jinja"),
        ("--metadata"), ("m.jinja"), ("--bin_size"), ("0")] =
      Except.ok ⟨⟨("gs"), ("i.jinja"), ("m.jinja"), true, some 0⟩,
        build_variant_to_binned_feature_name 0,
        build_variant_to_words true⟩ ∧
    run_startup [("--output"), ("gs"), ("--input"), ("i.jinja"),
        ("--metadata"), ("m.jinja"), ("--bin_size"), ("-7")] =
      Except.ok ⟨⟨("gs"), ("i.jinja"), ("m.jinja"), true, some (-7)⟩,
        build_variant_to_binned_feature_name (-7),
        build_variant_to_words true⟩ := ⟨rfl, rfl⟩

/-- C4: when `bin_size` is present, `run` selects the binned feature-name
strategy built with exactly that width; when it is `None`, the whole-contig
strategy. -/
theorem C4_strategy_selection (preprocess_options : PreprocessOptions)
    (b : Int) :
    (preprocess_options.bin_size = some b →
      select_variant_to_feature_name_fn preprocess_options =
        build_variant_to_binned_feature_name b) ∧
    (preprocess_options.bin_size = none →
      select_variant_to_feature_name_fn preprocess_options =
        variant_to_contig_feature_name) := by
  constructor <;> intro h <;>
    simp [select_variant_to_feature_name_fn, h]

/-- Witness for C4 at `bin_size = 25` and at `bin_size = None`. -/
theorem C4_strategy_selection_witness :
    select_variant_to_feature_name_fn
        ⟨("gs"), ("i"), ("m"), true, some 25⟩ =
      build_variant_to_binned_feature_name 25 ∧
    select_variant_to_feature_name_fn ⟨("gs"), ("i"), ("m"), true, none⟩ =
      variant_to_contig_feature_name :=
  ⟨(C4_strategy_selection ⟨("gs"), ("i"), ("m"), true, some 25⟩ 25).1 rfl,
   (C4_strategy_selection ⟨("gs"), ("i"), ("m"), true, none⟩ 0).2 rfl⟩

/-- C5: `add_hethom` defaults to true; `--hethom_words` keeps it true and
`--no_hethom_words` sets it false; and `run` builds the word encoder with
exactly the configured boolean. -/
theorem C5_hethom_toggle :
    parse_preprocess_args [("--output"), ("gs"), ("--input"), ("i"),
        ("--metadata"), ("m")] =
      Except.ok ⟨("gs"), ("i"), ("m"), true, none⟩ ∧
    parse_preprocess_args [("--output"), ("gs"), ("--input"), ("i"),
        ("--metadata"), ("m"), ("--hethom_words")] =
      Except.ok ⟨("gs"), ("i"), ("m"), true, none⟩ ∧
    parse_preprocess_args [("--output"), ("gs"), ("--input"), ("i"),
        ("--metadata"), ("m"), ("--no_hethom_words")] =
      Except.ok ⟨("gs"), ("i"), ("m"), false, none⟩ ∧
    ∀ preprocess_options : PreprocessOptions,
      select_variant_to_words_fn preprocess_options =
        build_variant_to_words preprocess_options.add_hethom :=
  ⟨rfl, rfl, rfl, fun _ => rfl⟩

/-- C8: the metadata query replacements carry exactly the four placeholders
and the data query replacements exactly the nine, each mapped to the
corresponding internal column-name constant. -/
theorem C8_query_replacements :
    METADATA_QUERY_REPLACEMENTS =
      [(("KEY_COLUMN"), KEY_COLUMN),
       (("POPULATION_COLUMN"), POPULATION_COLUMN),
       (("SUPER_POPULATION_COLUMN"), SUPER_POPULATION_COLUMN),
       (("GENDER_COLUMN"), GENDER_COLUMN)] ∧
    METADATA_QUERY_REPLACEMENTS.length = 4 ∧
    DATA_QUERY_REPLACEMENTS =
      [(("KEY_COLUMN"), KEY_COLUMN),
       (("CONTIG_COLUMN"), CONTIG_COLUMN),
       (("START_COLUMN"), START_COLUMN),
       (("END_COLUMN"), END_COLUMN),
       (("REF_COLUMN"), REF_COLUMN),
       (("ALT_COLUMN"), ALT_COLUMN),
       (("ALT_NUM_COLUMN"), ALT_NUM_COLUMN),
       (("FIRST_ALLELE_COLUMN"), FIRST_ALLELE_COLUMN),
       (("SECOND_ALLELE_COLUMN"), SECOND_ALLELE_COLUMN)] ∧
    DATA_QUERY_REPLACEMENTS.length = 9 :=
  ⟨rfl, rfl, rfl, rfl⟩

/-- A wall-clock reading of `datetime.datetime.now()` at second
granularity, as consumed by `strftime` in `run`. -/
structure Timestamp where
  year : Nat
  month : Nat
  day : Nat
  hour : Nat
  minute : Nat
  second : Nat
deriving DecidableEq, Repr

/-- A two-digit zero-padded decimal field of `strftime`. -/
def pad2 (n : Nat) : List Char := [Nat.digitChar (n / 10), Nat.digitChar (n % 10)]

/-- The four-digit zero-padded year field of `strftime`. -/
def pad4 (n : Nat) : List Char :=
  [Nat.digitChar (n / 1000), Nat.digitChar (n / 100 % 10),
   Nat.digitChar (n / 10 % 10), Nat.digitChar (n % 10)]

/-- `datetime.datetime.now().strftime(the format %Y%m%d-%H%M%S)` of line
148 of `run`, for in-range datetimes: zero-padded fixed-width decimal
fields. -/
def strftimeOutputStamp (t : Timestamp) : String :=
  String.mk (pad4 t.year ++ (pad2 t.month ++ (pad2 t.day ++ ([('-')] ++
    (pad2 t.hour ++ (pad2 t.minute ++ pad2 t.second))))))

/-- The ranges `datetime.datetime.now()` can produce (four-digit years, as
for any run of this pipeline). -/
def ValidTimestamp (t : Timestamp) : Prop :=
  1000 ≤ t.year ∧ t.year ≤ 9999 ∧ 1 ≤ t.month ∧ t.month ≤ 12 ∧
  1 ≤ t.day ∧ t.day ≤ 31 ∧ t.hour ≤ 23 ∧ t.minute ≤ 59 ∧ t.second ≤ 59

instance (t : Timestamp) : Decidable (ValidTimestamp t) := by
  unfold ValidTimestamp; infer_instance

theorem digitChar_inj_aux :
    ∀ a < 10, ∀ b < 10, Nat.digitChar a = Nat.digitChar b → a = b := by decide

theorem stamp_inj {t1 t2 : Timestamp} (h1 : ValidTimestamp t1)
    (h2 : ValidTimestamp t2)
    (h : strftimeOutputStamp t1 = strftimeOutputStamp t2) : t1 = t2 := by
  obtain ⟨hy1, hy1b, hmo1, hmo1b, hd1, hd1b, hh1, hmi1, hs1⟩ := h1
  obtain ⟨hy2, hy2b, hmo2, hmo2b, hd2, hd2b, hh2, hmi2, hs2⟩ := h2
  have h' : (strftimeOutputStamp t1).data = (strftimeOutputStamp t2).data := by
    rw [h]
  simp only [strftimeOutputStamp, pad4, pad2, List.cons_append,
    List.nil_append, List.cons.injEq, and_true] at h'
  obtain ⟨e1, e2, e3, e4, e5, e6, e7, e8, -, e9, e10, e11, e12, e13, e14⟩ := h'
  have q1 := digitChar_inj_aux _ (by omega) _ (by omega) e1
  have q2 := digitChar_inj_aux _ (by omega) _ (by omega) e2
  have q3 := digitChar_inj_aux _ (by omega) _ (by omega) e3
  have q4 := digitChar_inj_aux _ (by omega) _ (by omega) e4
  have q5 := digitChar_inj_aux _ (by omega) _ (by omega) e5
  have q6 := digitChar_inj_aux _ (by omega) _ (by omega) e6
  have q7 := digitChar_inj_aux _ (by omega) _ (by omega) e7
  have q8 := digitChar_inj_aux _ (by omega) _ (by omega) e8
  have q9 := digitChar_inj_aux _ (by omega) _ (by omega) e9
  have q10 := digitChar_inj_aux _ (by omega) _ (by omega) e10
  have q11 := digitChar_inj_aux _ (by omega) _ (by omega) e11
  have q12 := digitChar_inj_aux _ (by omega) _ (by omega) e12
  have q13 := digitChar_inj_aux _ (by omega) _ (by omega) e13
  have q14 := digitChar_inj_aux _ (by omega) _ (by omega) e14
  cases t1
  cases t2
  simp_all
  omega

/-- `os.path.join` for POSIX paths: an absolute second component wins;
otherwise the components are joined, adding a separator unless the first
component is empty or already ends in one. -/
def pathJoin (a b : String) : String :=
  if b.data.head? = some ('/') then b
  else if a.data = [] ∨ a.data.getLast? = some ('/') then a ++ b
  else a ++ ("/") ++ b

/-- Line 147 of `run`: `os.path.join(preprocess_options.output,
datetime.datetime.now().strftime(...))` — the per-run output directory. -/
def output_dir (output : String) (t : Timestamp) : String :=
  pathJoin output (strftimeOutputStamp t)

/-- Line 153 of `run`: `cloud_options.temp_location =
os.path.join(output_dir, the name tmp)`. -/
def temp_location (output : String) (t : Timestamp) : String :=
  pathJoin (output_dir output t) ("tmp")

/-- Line 152 of `run`: `cloud_options.staging_location =
os.path.join(output_dir, tmp, staging)`. -/
def staging_location (output : String) (t : Timestamp) : String :=
  pathJoin (temp_location output t) ("staging")

/-- Line 204 of `run`: the `WriteExamples` file path root,
`os.path.join(output_dir, the name examples)`. -/
def examples_path (output : String) (t : Timestamp) : String :=
  pathJoin (output_dir output t) ("examples")

theorem digit_ne_slash : ∀ a < 10, Nat.digitChar a ≠ ('/') := by decide

theorem stamp_head (t : Timestamp) :
    (strftimeOutputStamp t).data.head? = some (Nat.digitChar (t.year / 1000)) := rfl

theorem stamp_last (t : Timestamp) :
    (strftimeOutputStamp t).data.getLast? = some (Nat.digitChar (t.second % 10)) := by
  simp [strftimeOutputStamp, pad4, pad2]

theorem stamp_len (t : Timestamp) :
    (strftimeOutputStamp t).data.length = 15 := by
  simp [strftimeOutputStamp, pad4, pad2]

theorem stamp_ne_nil (t : Timestamp) : (strftimeOutputStamp t).data ≠ [] := by
  simp [strftimeOutputStamp, pad4, pad2]

theorem stamp_head_ne_slash {t : Timestamp} (h : ValidTimestamp t) :
    (strftimeOutputStamp t).data.head? ≠ some ('/') := by
  obtain ⟨-, hy, -⟩ := h
  rw [stamp_head]
  intro hc
  exact digit_ne_slash (t.year / 1000) (by omega) (Option.some.inj hc)

theorem string_append_right_inj {o b c : String} (h : o ++ b = o ++ c) :
    b = c := by
  have hd : (o ++ b).data = (o ++ c).data := by rw [h]
  rw [String.data_append, String.data_append] at hd
  exact String.ext (List.append_cancel_left hd)

theorem append_suffix_inj {x y s : String} (h : x ++ s = y ++ s)
    (hlen : x.data.length = y.data.length) : x = y := by
  have hd : (x ++ s).data = (y ++ s).data := by rw [h]
  rw [String.data_append, String.data_append] at hd
  exact String.ext (List.append_inj hd hlen).1

theorem output_dir_cases (o : String) {t : Timestamp} (h : ValidTimestamp t) :
    output_dir o t =
      if o.data = [] ∨ o.data.getLast? = some ('/') then
        o ++ strftimeOutputStamp t
      else o ++ ("/") ++ strftimeOutputStamp t := by
  unfold output_dir pathJoin
  rw [if_neg (stamp_head_ne_slash h)]

theorem output_dir_inj (o : String) {t1 t2 : Timestamp}
    (h1 : ValidTimestamp t1) (h2 : ValidTimestamp t2)
    (h : output_dir o t1 = output_dir o t2) : t1 = t2 := by
  rw [output_dir_cases o h1, output_dir_cases o h2] at h
  by_cases hc : o.data = [] ∨ o.data.getLast? = some ('/')
  · rw [if_pos hc, if_pos hc] at h
    exact stamp_inj h1 h2 (string_append_right_inj h)
  · rw [if_neg hc, if_neg hc] at h
    exact stamp_inj h1 h2 (string_append_right_inj h)

theorem output_dir_len (o : String) {t1 t2 : Timestamp}
    (h1 : ValidTimestamp t1) (h2 : ValidTimestamp t2) :
    (output_dir o t1).data.length = (output_dir o t2).data.length := by
  rw [output_dir_cases o h1, output_dir_cases o h2]
  by_cases hc : o.data = [] ∨ o.data.getLast? = some ('/') <;>
    simp [hc, String.data_append, stamp_len t1, stamp_len t2]

theorem output_dir_ne_nil (o : String) {t : Timestamp}
    (h : ValidTimestamp t) : (output_dir o t).data ≠ [] := by
  rw [output_dir_cases o h]
  by_cases hc : o.data = [] ∨ o.data.getLast? = some ('/') <;>
    simp [hc, String.data_append, List.append_eq_nil, stamp_ne_nil t]

theorem output_dir_last (o : String) {t : Timestamp} (h : ValidTimestamp t) :
    (output_dir o t).data.getLast? = some (Nat.digitChar (t.second % 10)) := by
  have hne : (strftimeOutputStamp t).data ≠ [] := stamp_ne_nil t
  rw [output_dir_cases o h]
  by_cases hc : o.data = [] ∨ o.data.getLast? = some ('/') <;>
    simp only [hc, if_true, if_false, String.data_append] <;>
    rw [List.getLast?_append_of_ne_nil _ hne] <;> exact stamp_last t

theorem output_dir_last_ne_slash (o : String) {t : Timestamp}
    (h : ValidTimestamp t) :
    (output_dir o t).data.getLast? ≠ some ('/') := by
  rw [output_dir_last o h]
  intro hc
  exact digit_ne_slash (t.second % 10) (Nat.mod_lt _ (by omega)) (Option.some.inj hc)

theorem pathJoin_eq_slash {x c : String} (hc : c.data.head? ≠ some ('/'))
    (hx : x.data ≠ []) (hxl : x.data.getLast? ≠ some ('/')) :
    pathJoin x c = x ++ ("/") ++ c := by
  unfold pathJoin
  rw [if_neg hc, if_neg (by tauto)]

theorem pathJoin_under_inj {x y c : String} (hc : c.data.head? ≠ some ('/'))
    (hx : x.data ≠ []) (hy : y.data ≠ [])
    (hxl : x.data.getLast? ≠ some ('/')) (hyl : y.data.getLast? ≠ some ('/'))
    (hlen : x.data.length = y.data.length)
    (h : pathJoin x c = pathJoin y c) : x = y := by
  rw [pathJoin_eq_slash hc hx hxl, pathJoin_eq_slash hc hy hyl] at h
  have h1 := append_suffix_inj h (by simp [String.data_append, hlen])
  exact append_suffix_inj h1 hlen

theorem tmp_head_ne_slash : (("tmp") : String).data.head? ≠ some ('/') := by
  decide

theorem examples_head_ne_slash :
    (("examples") : String).data.head? ≠ some ('/') := by decide

theorem staging_head_ne_slash :
    (("staging") : String).data.head? ≠ some ('/') := by decide

theorem temp_eq (o : String) {t : Timestamp} (h : ValidTimestamp t) :
    temp_location o t = output_dir o t ++ ("/") ++ ("tmp") :=
  pathJoin_eq_slash tmp_head_ne_slash (output_dir_ne_nil o h)
    (output_dir_last_ne_slash o h)

theorem temp_ne_nil (o : String) {t : Timestamp} (h : ValidTimestamp t) :
    (temp_location o t).data ≠ [] := by
  rw [temp_eq o h]
  simp [String.data_append, List.append_eq_nil]

theorem temp_last_ne_slash (o : String) {t : Timestamp}
    (h : ValidTimestamp t) :
    (temp_location o t).data.getLast? ≠ some ('/') := by
  rw [temp_eq o h]
  simp only [String.data_append]
  rw [List.getLast?_append_of_ne_nil _ (by decide :
    (("tmp") : String).data ≠ [])]
  decide

theorem temp_len (o : String) {t1 t2 : Timestamp} (h1 : ValidTimestamp t1)
    (h2 : ValidTimestamp t2) :
    (temp_location o t1).data.length = (temp_location o t2).data.length := by
  rw [temp_eq o h1, temp_eq o h2]
  simp [String.data_append, output_dir_len o h1 h2]

/-- Claim C10: every run writes its examples and its staging/temp files
under a fresh per-run subdirectory of the configured output path, named by
the second-granularity timestamp; two runs started at different seconds use
disjoint directories and never overwrite each other. -/
theorem C10_fresh_timestamped_output (output : String) (t1 t2 : Timestamp)
    (h1 : ValidTimestamp t1) (h2 : ValidTimestamp t2) (hne : t1 ≠ t2) :
    output_dir output t1 = pathJoin output (strftimeOutputStamp t1) ∧
    temp_location output t1 = pathJoin (output_dir output t1) ("tmp") ∧
    staging_location output t1 = pathJoin (temp_location output t1) ("staging") ∧
    examples_path output t1 = pathJoin (output_dir output t1) ("examples") ∧
    output_dir output t1 ≠ output_dir output t2 ∧
    temp_location output t1 ≠ temp_location output t2 ∧
    staging_location output t1 ≠ staging_location output t2 ∧
    examples_path output t1 ≠ examples_path output t2 := by
  refine ⟨rfl, rfl, rfl, rfl, ?_, ?_, ?_, ?_⟩
  · intro h
    exact hne (output_dir_inj output h1 h2 h)
  · intro h
    exact hne (output_dir_inj output h1 h2 (pathJoin_under_inj
      tmp_head_ne_slash (output_dir_ne_nil output h1)
      (output_dir_ne_nil output h2) (output_dir_last_ne_slash output h1)
      (output_dir_last_ne_slash output h2) (output_dir_len output h1 h2) h))
  · intro h
    have hmid := pathJoin_under_inj staging_head_ne_slash
      (temp_ne_nil output h1) (temp_ne_nil output h2)
      (temp_last_ne_slash output h1) (temp_last_ne_slash output h2)
      (temp_len output h1 h2) h
    exact hne (output_dir_inj output h1 h2 (pathJoin_under_inj
      tmp_head_ne_slash (output_dir_ne_nil output h1)
      (output_dir_ne_nil output h2) (output_dir_last_ne_slash output h1)
      (output_dir_last_ne_slash output h2) (output_dir_len output h1 h2) hmid))
  · intro h
    exact hne (output_dir_inj output h1 h2 (pathJoin_under_inj
      examples_head_ne_slash (output_dir_ne_nil output h1)
      (output_dir_ne_nil output h2) (output_dir_last_ne_slash output h1)
      (output_dir_last_ne_slash output h2) (output_dir_len output h1 h2) h))

/-- Witness for C10 at two timestamps one second apart. -/
theorem C10_witness :
    output_dir ("gs") ⟨2016, 1, 2, 3, 4, 5⟩ =
      pathJoin ("gs") (strftimeOutputStamp ⟨2016, 1, 2, 3, 4, 5⟩) ∧
    temp_location ("gs") ⟨2016, 1, 2, 3, 4, 5⟩ =
      pathJoin (output_dir ("gs") ⟨2016, 1, 2, 3, 4, 5⟩) ("tmp") ∧
    staging_location ("gs") ⟨2016, 1, 2, 3, 4, 5⟩ =
      pathJoin (temp_location ("gs") ⟨2016, 1, 2, 3, 4, 5⟩) ("staging") ∧
    examples_path ("gs") ⟨2016, 1, 2, 3, 4, 5⟩ =
      pathJoin (output_dir ("gs") ⟨2016, 1, 2, 3, 4, 5⟩) ("examples") ∧
    output_dir ("gs") ⟨2016, 1, 2, 3, 4, 5⟩ ≠
      output_dir ("gs") ⟨2016, 1, 2, 3, 4, 6⟩ ∧
    temp_location ("gs") ⟨2016, 1, 2, 3, 4, 5⟩ ≠
      temp_location ("gs") ⟨2016, 1, 2, 3, 4, 6⟩ ∧
    staging_location ("gs") ⟨2016, 1, 2, 3, 4, 5⟩ ≠
      staging_location ("gs") ⟨2016, 1, 2, 3, 4, 6⟩ ∧
    examples_path ("gs") ⟨2016, 1, 2, 3, 4, 5⟩ ≠
      examples_path ("gs") ⟨2016, 1, 2, 3, 4, 6⟩ :=
  C10_fresh_timestamped_output ("gs") ⟨2016, 1, 2, 3, 4, 5⟩
    ⟨2016, 1, 2, 3, 4, 6⟩ (by decide) (by decide) (by decide)
